import Mathlib

/-!
Shallow embedding of `app.py` (blur-detection pipeline):
fetch → decode → normalize → score → classify.

Python exceptions are modelled as values of `PyErr`; fallible operations
return `Except PyErr α`.  Floating-point scores and thresholds are modelled
exactly as rationals (all Laplacian responses are integers bounded well below
2^53, so the double-precision computation is exact for the properties proved
here; `np.var` is the population variance).  External effects (HTTP, the
filesystem, `pdf2image`, `cv2.imdecode`/`imread`) are an explicit oracle
`World` that each fallible call consults.
-/

/-- A Python exception value: a `ValueError` raised by `app.py` itself, a
`cv2.error` raised by OpenCV, or any other library exception (requests,
pdf2image, ...), each carrying its `str(e)` message. -/
inductive PyErr where
  | valueError (msg : String)
  | cvError (msg : String)
  | libError (msg : String)
deriving DecidableEq, Repr

/-- `str(e)` of a Python exception. -/
def PyErr.msg : PyErr → String
  | .valueError m => m
  | .cvError m => m
  | .libError m => m

/-! ### Source resolver: `is_pdf` (app.py lines 16-18) -/

/-- `str.lower` on one character (ASCII range; the only case mappings that
matter for a `.pdf` suffix are ASCII). -/
def pyCharLower (c : Char) : Char :=
  if 'A' ≤ c ∧ c ≤ 'Z' then Char.ofNat (c.toNat + 32) else c

/-- `str.lower`. -/
def pyLower (s : String) : String :=
  String.mk (s.data.map pyCharLower)

/-- `str.endswith(suffix)`. -/
def pyEndsWith (s suffix : String) : Bool :=
  suffix.data.isSuffixOf s.data

/-- `is_pdf(path)`: `path.lower().endswith('.pdf')`. -/
def is_pdf (path : String) : Bool :=
  pyEndsWith (pyLower path) ".pdf"

/-! ### Source resolver: `is_url` (app.py lines 8-14), over a model of
CPython's `urllib.parse.urlsplit`. -/

/-- WHATWG C0 control or space (CPython 3.11 `_WHATWG_C0_CONTROL_OR_SPACE`). -/
def c0ControlOrSpace (c : Char) : Bool :=
  c.toNat ≤ 0x20

/-- `urlsplit` preprocessing: strip C0 controls and spaces from the left
only (CPython deliberately `lstrip`s, preserving trailing space), then
delete every ASCII tab, CR and LF. -/
def urlPreprocess (s : String) : List Char :=
  (s.data.dropWhile c0ControlOrSpace).filter
    (fun c => !(c = '\t' ∨ c = '\r' ∨ c = '\n'))

/-- Characters allowed in a URI scheme after the initial letter
(CPython `scheme_chars`). -/
def schemeChar (c : Char) : Bool :=
  c.isAlphanum || c = '+' || c = '-' || c = '.'

/-- ASCII hexadecimal digit (`ipaddress._HEX_DIGITS`). -/
def isHexDigitChar (c : Char) : Bool :=
  c.isDigit || ('a' ≤ c && c ≤ 'f') || ('A' ≤ c && c ≤ 'F')

/-- Decimal value of an all-digit string. -/
def digitsVal (s : List Char) : ℕ :=
  s.foldl (fun n c => n * 10 + (c.toNat - 48)) 0

/-- `ipaddress._parse_octet`: nonempty, ASCII digits only, at most 3
characters, no leading zero (except `"0"` itself), value at most 255. -/
def validOctet (s : List Char) : Bool :=
  !s.isEmpty && s.all (·.isDigit) && decide (s.length ≤ 3) &&
    (decide (s = ['0']) || !decide (s.headD '1' = '0')) &&
    decide (digitsVal s ≤ 255)

/-- `IPv4Address(str)`: no `/`, nonempty, exactly four valid octets
separated by dots. -/
def isValidIPv4 (s : List Char) : Bool :=
  !s.contains '/' && !s.isEmpty &&
    (let octets := s.splitOn '.'
     decide (octets.length = 4) && octets.all validOctet)

/-- `ipaddress._parse_hextet`: hex digits only, 1 to 4 of them (an empty
hextet fails CPython's `int(s, 16)`). -/
def validHextet (s : List Char) : Bool :=
  !s.isEmpty && s.all isHexDigitChar && decide (s.length ≤ 4)

/-- The hextet-structure phase of `IPv6Address._ip_int_from_string`: at
most 9 parts; at most one empty internal part (the `::` skip), a leading
or trailing empty part only adjacent to the skip, at least one zero-group
skipped; without `::` exactly 8 parts; every parsed part a valid hextet. -/
def ipv6Hextets (parts : List (List Char)) : Bool :=
  let n := parts.length
  decide (n ≤ 9) &&
    (let skips := ((List.range n).drop 1).filter
        (fun i => decide (i < n - 1) && (parts.getD i [' ']).isEmpty)
     match skips with
     | [] => decide (n = 8) && parts.all validHextet
     | [i] =>
         let h0 := (parts.headD [' ']).isEmpty
         let l0 := (parts.getLastD [' ']).isEmpty
         let hi := if h0 then i - 1 else i
         let lo := if l0 then n - i - 2 else n - i - 1
         (!h0 || decide (hi = 0)) && (!l0 || decide (lo = 0)) &&
           decide (hi + lo ≤ 7) &&
           (parts.take hi).all validHextet &&
           (parts.drop (n - lo)).all validHextet
     | _ => false)

/-- `IPv6Address._ip_int_from_string`: nonempty, at least 3 colon-parts;
a dotted last part must be a valid IPv4 address and contributes two
hextets; then the hextet-structure check. -/
def ipv6Core (a : List Char) : Bool :=
  !a.isEmpty &&
    (let parts := a.splitOn ':'
     decide (3 ≤ parts.length) &&
       (let lastP := parts.getLastD []
        if lastP.contains '.' then
          isValidIPv4 lastP && ipv6Hextets (parts.dropLast ++ [['0'], ['0']])
        else ipv6Hextets parts))

/-- `IPv6Address(str)`: no `/`; an optional `%scope` suffix (split at the
first `%`) whose scope id is nonempty and `%`-free; then the address
grammar. -/
def isValidIPv6 (s : List Char) : Bool :=
  !s.contains '/' &&
    (if s.contains '%' then
       let addr := s.takeWhile (· ≠ '%')
       let scope := (s.dropWhile (· ≠ '%')).drop 1
       !scope.isEmpty && !scope.contains '%' && ipv6Core addr
     else ipv6Core s)

/-- The IPvFuture arm of `_check_bracketed_host`: CPython's regex
`\Av[a-fA-F0-9]+\..+\Z` — a lowercase `v`, one or more hex digits, a dot,
then a nonempty newline-free tail. -/
def isIPvFutureOk : List Char → Bool
  | 'v' :: rest =>
      let hex := rest.takeWhile isHexDigitChar
      let after := rest.dropWhile isHexDigitChar
      !hex.isEmpty &&
        (match after with
         | '.' :: tail => !tail.isEmpty && !tail.contains '\n'
         | _ => false)
  | _ => false

/-- `urllib.parse._check_bracketed_host` succeeds: a host starting with
`v` must be an IPvFuture address; any other bracketed host must be a
valid IPv6 address (a valid IPv4 address in brackets also raises). -/
def bracketedHostOk (host : List Char) : Bool :=
  if host.headD ' ' = 'v' then isIPvFutureOk host else isValidIPv6 host

/-- The characters whose NFKC normalization contains one of `/?#@:`
(Unicode 14.0, as shipped with CPython 3.11); `_checknetloc` raises
exactly when the netloc contains one of them, since those ASCII
characters can neither be produced nor consumed by canonical
composition. -/
def nfkcUnsafeChars : List Char :=
  ['⁇', '⁈', '⁉', '℀', '℁', '℅', '℆',
   '⩴', '︓', '︖', '﹕', '﹖', '﹟', '﹫',
   '＃', '／', '：', '？', '＠']

/-- `urllib.parse._checknetloc` raises. -/
def checknetlocRaises (netloc : List Char) : Bool :=
  netloc.any (nfkcUnsafeChars.contains ·)

/-- Model of CPython 3.11's `urllib.parse.urlsplit`, restricted to the
fields `is_url` reads: returns `some (scheme, netloc)`, or `none` when
CPython raises `ValueError` — a mismatched square bracket in the netloc,
a bracketed host rejected by `_check_bracketed_host`, or a netloc
rejected by `_checknetloc`. -/
def urlsplitModel (s : String) : Option (String × String) :=
  let url := urlPreprocess s
  let (scheme, rest) :=
    match url.findIdx? (· = ':') with
    | some i =>
        if 0 < i ∧ (url.headD ' ').isAlpha ∧ (url.take i).all schemeChar then
          (String.mk ((url.take i).map pyCharLower), url.drop (i + 1))
        else ("", url)
    | none => ("", url)
  match rest with
  | '/' :: '/' :: afterSlashes =>
      let netloc := afterSlashes.takeWhile (fun c => !(c = '/' ∨ c = '?' ∨ c = '#'))
      if ('[' ∈ netloc ∧ ']' ∉ netloc) ∨ (']' ∈ netloc ∧ '[' ∉ netloc) then
        none
      else if '[' ∈ netloc ∧ ']' ∈ netloc then
        if bracketedHostOk (((netloc.dropWhile (· ≠ '[')).drop 1).takeWhile (· ≠ ']')) then
          if checknetlocRaises netloc then none else some (scheme, String.mk netloc)
        else none
      else
        if checknetlocRaises netloc then none else some (scheme, String.mk netloc)
  | _ => some (scheme, "")

/-- `is_url(path)`: `urlparse` then `all([result.scheme, result.netloc])`;
a parse-time `ValueError` is caught and yields `False`. -/
def is_url (path : String) : Bool :=
  match urlsplitModel path with
  | none => false
  | some (scheme, netloc) => scheme ≠ "" ∧ netloc ≠ ""

/-! ### Blur scorer: `detect_blur` (app.py lines 55-81).

A pixel buffer (`numpy` `uint8` array of shape `h × w × 3`) is a list of
rows of `(c0, c1, c2)` channel triples; for an OpenCV buffer the order is
BGR, for a `PIL` image it is RGB.  A buffer corresponds to a real `ndarray`
iff it is rectangular with at least one row and one column (`IsWfImg`). -/

abbrev Pix := ℕ × ℕ × ℕ

abbrev Img := List (List Pix)

/-- The buffer is a real nonempty `h × w × 3` raster: at least one row, and
all rows share one positive width. -/
def IsWfImg (img : Img) : Bool :=
  decide (img ≠ [] ∧ (img.headD []) ≠ [] ∧
    ∀ row ∈ img, row.length = (img.headD []).length)

/-- The `cv2.error` raised when the scorer receives an unusable buffer
(OpenCV's `!_src.empty()` assertion in `cvtColor`); this realizes the
spec's `InvalidImageError`. -/
def InvalidImageError : PyErr :=
  .cvError "(-215:Assertion failed) !_src.empty() in function cvtColor"

/-- OpenCV `BGR2GRAY` on one pixel: the luma fixed-point formula
`(B*1868 + G*9617 + R*4899 + 2^13) >> 14` (coefficients 0.114/0.587/0.299
scaled by `2^14`, round-half-up descaling). -/
def bgr2grayPix (p : Pix) : ℕ :=
  (1868 * p.1 + 9617 * p.2.1 + 4899 * p.2.2 + 8192) / 16384

/-- Pointwise grayscale conversion of a buffer. -/
def grayOf (img : Img) : List (List ℕ) :=
  img.map (·.map bgr2grayPix)

/-- `cv2.cvtColor(image, cv2.COLOR_BGR2GRAY)`: fails on a buffer that is
not a nonempty rectangular raster, otherwise converts pointwise. -/
def cvtColorGray (img : Img) : Except PyErr (List (List ℕ)) :=
  if IsWfImg img then .ok (grayOf img) else .error InvalidImageError

/-- OpenCV `BORDER_REFLECT_101` index interpolation, for the one-off
out-of-range indices a 3×3 aperture produces (`-1` and `len`): reflect
about the edge pixel without repeating it; a length-1 axis clamps to 0. -/
def reflect101 (idx : ℤ) (len : ℕ) : ℕ :=
  if len = 1 then 0
  else if idx < 0 then (-idx).toNat
  else if (len : ℤ) ≤ idx then 2 * len - 2 - idx.toNat
  else idx.toNat

/-- Grayscale value at (possibly out-of-range) coordinates, with
`BORDER_REFLECT_101` boundary handling. -/
def grayAt (g : List (List ℕ)) (i j : ℤ) : ℤ :=
  ((g.getD (reflect101 i g.length) []).getD
    (reflect101 j (g.headD []).length) 0 : ℕ)

/-- One Laplacian response value: the 3×3 aperture `[[0,1,0],[1,-4,1],[0,1,0]]`
(`cv2.Laplacian` with its default `ksize=1`) at row `i`, column `j`. -/
def lapAt (g : List (List ℕ)) (i j : ℕ) : ℤ :=
  grayAt g ((i : ℤ) - 1) j + grayAt g ((i : ℤ) + 1) j +
    grayAt g i ((j : ℤ) - 1) + grayAt g i ((j : ℤ) + 1) - 4 * grayAt g i j

/-- `cv2.Laplacian(gray, cv2.CV_64F)`: the response matrix, same spatial
size as `gray` (all responses are integers, exact in `float64`). -/
def laplacian (g : List (List ℕ)) : List (List ℤ) :=
  (List.range g.length).map fun i =>
    (List.range (g.headD []).length).map fun j => lapAt g i j

/-- `np.var`: population variance (mean of squared deviations from the
mean, `ddof=0`). -/
def npVar (xs : List ℚ) : ℚ :=
  (xs.map fun x => (x - xs.sum / xs.length) ^ 2).sum / xs.length

/-- The scorer's input: a raw OpenCV buffer (`np.ndarray`, BGR) or a PIL
image (RGB), as the source's `isinstance(image, np.ndarray)` test
distinguishes them. -/
inductive ImageInput where
  | nd (img : Img)
  | pil (img : Img)
deriving DecidableEq, Repr

/-- The normalization step of `detect_blur` (app.py lines 67-69): a PIL
image is converted to an OpenCV buffer, swapping RGB→BGR channel order;
a raw buffer is used as is. -/
def toBGR : ImageInput → Img
  | .nd img => img
  | .pil img => img.map (·.map fun p => (p.2.2, p.2.1, p.1))

/-- `detect_blur(image, threshold)`: normalize to BGR, convert to grayscale,
take the Laplacian, score by its variance, classify by `score < threshold`. -/
def detect_blur (image : ImageInput) (threshold : ℚ) : Except PyErr (Bool × ℚ) := do
  let gray ← cvtColorGray (toBGR image)
  let blur_score := npVar ((laplacian gray).flatten.map (Int.cast : ℤ → ℚ))
  return (decide (blur_score < threshold), blur_score)

/-- The score of a well-formed buffer, as a standalone function. -/
def blurScore (img : Img) : ℚ :=
  npVar ((laplacian (grayOf img)).flatten.map (Int.cast : ℤ → ℚ))

/-- The raw pixel grid of a scorer input, before channel normalization. -/
def rawGrid : ImageInput → Img
  | .nd img => img
  | .pil img => img

/-! ### Score formatting: the f-string `{score:.2f}` -/

/-- Round to the nearest integer, ties to even (the rounding of Python's
fixed-point float formatting, idealized over exact rationals). -/
def roundHalfEven (q : ℚ) : ℤ :=
  let f := ⌊q⌋
  let r := q - f
  if r < 1 / 2 then f
  else if 1 / 2 < r then f + 1
  else if f % 2 = 0 then f else f + 1

/-- `f"{q:.2f}"`: two fixed decimal places. -/
def fmt2 (q : ℚ) : String :=
  let n := roundHalfEven (q * 100)
  let a := n.natAbs
  (if n < 0 then "-" else "") ++ toString (a / 100) ++ "." ++
    (if a % 100 < 10 then "0" else "") ++ toString (a % 100)

/-! ### The external world (HTTP, filesystem, pdf2image, cv2 codecs).

`httpGet url` models `requests.get(url)`: either `(status_code, content)`
or a raised requests exception.  `convert_from_bytes`/`convert_from_path`
model `pdf2image` rendering (a list of PIL pages, or a raised exception).
`imdecode`/`imread` model the OpenCV codecs, which return `None` on
failure rather than raising. -/
structure World where
  httpGet : String → Except PyErr (ℕ × List ℕ)
  convert_from_bytes : List ℕ → Except PyErr (List Img)
  convert_from_path : String → Except PyErr (List Img)
  imdecode : List ℕ → Option Img
  imread : String → Option Img

/-! ### Fetcher and decoder (app.py lines 20-53) -/

/-- `download_file(url)`: GET, then fail on any status other than 200. -/
def download_file (w : World) (url : String) : Except PyErr (List ℕ) :=
  match w.httpGet url with
  | .error e => .error e
  | .ok (status, content) =>
      if status ≠ 200 then
        .error (.valueError ("Failed to download file from URL: " ++ url))
      else .ok content

/-- The body of `process_pdf`'s `try` block: fetch-then-render for a URL,
render-from-path otherwise (exceptions propagate). -/
def pdfImages (w : World) (pdf_path : String) : Except PyErr (List Img) :=
  if is_url pdf_path then
    match download_file w pdf_path with
    | .error e => .error e
    | .ok pdf_content => w.convert_from_bytes pdf_content
  else
    w.convert_from_path pdf_path

/-- `process_pdf(pdf_path)`: any exception `e` from fetching, parsing or
rendering is caught and re-raised as
`ValueError("Error processing PDF: " + str(e))`. -/
def process_pdf (w : World) (pdf_path : String) : Except PyErr (List Img) :=
  match pdfImages w pdf_path with
  | .ok images => .ok images
  | .error e => .error (.valueError ("Error processing PDF: " ++ e.msg))

/-- `download_image(url)`: GET, fail on non-200; then `cv2.imdecode`, and
fail if it yields no image. -/
def download_image (w : World) (url : String) : Except PyErr Img :=
  match w.httpGet url with
  | .error e => .error e
  | .ok (status, content) =>
      if status ≠ 200 then
        .error (.valueError ("Failed to download image from URL: " ++ url))
      else
        match w.imdecode content with
        | none => .error (.valueError ("Failed to decode image from URL: " ++ url))
        | some image => .ok image

/-! ### Reporter / orchestrator: `process_file` (app.py lines 83-109).

The effect of a run is the ordered list of printed lines together with the
exception that aborted it, if any (`print`s made before the raise are
kept). -/

/-- The status word of a classification. -/
def statusStr (is_blurry : Bool) : String :=
  if is_blurry then "BLURRY" else "CLEAR"

/-- `"-" * 50`. -/
def dashes : String :=
  "--------------------------------------------------"

/-- The per-page loop of `process_file`'s PDF branch: `enumerate(images)`
starting the counter at `i`, scoring each PIL page, printing its four-line
block, and continuing with the remaining pages (an exception aborts the
loop, keeping the lines already printed). -/
def reportPages (t : ℚ) : List Img → ℕ → List String × Option PyErr
  | [], _ => ([], none)
  | image :: rest, i =>
    match detect_blur (.pil image) t with
    | .error e => ([], some e)
    | .ok (b, score) =>
        (("Page " ++ toString (i + 1) ++ ":") ::
         ("Status: " ++ statusStr b) ::
         ("Blur Score: " ++ fmt2 score) ::
         dashes :: (reportPages t rest (i + 1)).1,
         (reportPages t rest (i + 1)).2)

/-- `process_file(file_path, threshold)`: PDF branch (header line, decode,
one block per page) or image branch (fetch-or-read, `None` check, one
three-line block). -/
def process_file (w : World) (file_path : String) (threshold : ℚ) :
    List String × Option PyErr :=
  if is_pdf file_path then
    match process_pdf w file_path with
    | .error e => (["Processing PDF: " ++ file_path], some e)
    | .ok images =>
        let (ls, err) := reportPages threshold images 0
        (("Processing PDF: " ++ file_path) :: ls, err)
  else
    match (if is_url file_path then
             match download_image w file_path with
             | .error e => .error e
             | .ok image => .ok (some image)
           else .ok (w.imread file_path) : Except PyErr (Option Img)) with
    | .error e => ([], some e)
    | .ok none => ([], some (.valueError ("Could not read image at " ++ file_path)))
    | .ok (some image) =>
        match detect_blur (.nd image) threshold with
        | .error e => ([], some e)
        | .ok (b, score) =>
            (["Image: " ++ file_path,
              "Status: " ++ statusStr b,
              "Blur Score: " ++ fmt2 score], none)

/-! ### Allocation model of the scorer (for the frame property).

The `ndarray`s live in an explicit heap (a list of matrices, a handle
being an index); each OpenCV conversion writes a freshly allocated
matrix, exactly as `cv2.cvtColor` and `cv2.Laplacian` return new arrays
without writing to their source argument. -/

/-- A heap-allocated matrix: `uint8` 3-channel, `uint8` single-channel, or
`float64` single-channel (Laplacian responses, all integral). -/
inductive Mat where
  | u8c3 (img : Img)
  | u8c1 (g : List (List ℕ))
  | f64 (m : List (List ℤ))
deriving DecidableEq, Repr

abbrev Heap := List Mat

/-- `cv2.cvtColor(·, COLOR_BGR2GRAY)` against the heap: read the source
handle, allocate the grayscale result as a fresh matrix. -/
def cvtColorGrayH (heap : Heap) (h : ℕ) : Except PyErr (ℕ × Heap) :=
  match heap.getD h (.u8c3 []) with
  | .u8c3 img =>
      match cvtColorGray img with
      | .ok g => .ok (heap.length, heap ++ [.u8c1 g])
      | .error e => .error e
  | _ => .error (.cvError "cvtColor: invalid source matrix type")

/-- `cv2.Laplacian(·, CV_64F)` against the heap: read the source handle,
allocate the response as a fresh matrix. -/
def laplacianH (heap : Heap) (h : ℕ) : Except PyErr (ℕ × Heap) :=
  match heap.getD h (.u8c3 []) with
  | .u8c1 g => .ok (heap.length, heap ++ [.f64 (laplacian g)])
  | _ => .error (.cvError "Laplacian: invalid source matrix type")

/-- `detect_blur` on a raw buffer held in the heap: grayscale, Laplacian,
variance, classification; returns the result and the final heap
(exceptions propagate as in Python). -/
def detect_blurH (heap : Heap) (h : ℕ) (t : ℚ) :
    Except PyErr ((Bool × ℚ) × Heap) :=
  match cvtColorGrayH heap h with
  | .error e => .error e
  | .ok (gh, heap1) =>
      match laplacianH heap1 gh with
      | .error e => .error e
      | .ok (lh, heap2) =>
          let vals := match heap2.getD lh (.u8c3 []) with
            | .f64 m => m.flatten
            | _ => []
          let blur_score := npVar (vals.map (Int.cast : ℤ → ℚ))
          .ok ((decide (blur_score < t), blur_score), heap2)

/-! ### Output-line classifiers and fixtures -/

/-- The line is a per-page index line `"Page {n}:"`. -/
def isPageLine (l : String) : Bool :=
  "Page ".data.isPrefixOf l.data

/-- The line is a classification line `"Status: ..."`. -/
def isStatusLine (l : String) : Bool :=
  "Status: ".data.isPrefixOf l.data

/-- The line is a score line `"Blur Score: ..."`. -/
def isScoreLine (l : String) : Bool :=
  "Blur Score: ".data.isPrefixOf l.data

/-- Success class of an HTTP status (2xx), as the spec's words describe a
"success" response. -/
def isHttpSuccess (status : ℕ) : Bool :=
  decide (200 ≤ status ∧ status < 300)

/-- A uniform dark-gray one-pixel buffer. -/
def uniPix1 : Img :=
  [[(5, 5, 5)]]

/-- A maximum-contrast two-pixel buffer (score `260100`). -/
def sharp2 : Img :=
  [[(0, 0, 0), (255, 255, 255)]]

/-- A world whose HTTP responses all carry status 204 (No Content). -/
def w204 : World where
  httpGet := fun _ => .ok (204, [])
  convert_from_bytes := fun _ => .ok []
  convert_from_path := fun _ => .ok []
  imdecode := fun _ => none
  imread := fun _ => none

/-- A world whose HTTP responses all carry status 404. -/
def w404 : World where
  httpGet := fun _ => .ok (404, [])
  convert_from_bytes := fun _ => .ok []
  convert_from_path := fun _ => .ok []
  imdecode := fun _ => none
  imread := fun _ => none

/-- A world where local PDF rendering raises a poppler error. -/
def wBoom : World where
  httpGet := fun _ => .error (.libError "connection refused")
  convert_from_bytes := fun _ => .error (.libError "poppler failed")
  convert_from_path := fun _ => .error (.libError "poppler failed")
  imdecode := fun _ => none
  imread := fun _ => none

/-- A world where every local PDF renders to three uniform pages. -/
def w3pdf : World where
  httpGet := fun _ => .error (.libError "connection refused")
  convert_from_bytes := fun _ => .ok []
  convert_from_path := fun _ => .ok [uniPix1, uniPix1, uniPix1]
  imdecode := fun _ => none
  imread := fun _ => none

/-! ## Theorems -/

/-! ### Scorer evaluation helpers -/

theorem detect_blur_wf (image : ImageInput) (t : ℚ)
    (h : IsWfImg (toBGR image) = true) :
    detect_blur image t =
      .ok (decide (blurScore (toBGR image) < t), blurScore (toBGR image)) := by
  simp [detect_blur, cvtColorGray, blurScore, h]

theorem detect_blur_not_wf (image : ImageInput) (t : ℚ)
    (h : IsWfImg (toBGR image) = false) :
    detect_blur image t = .error InvalidImageError := by
  simp [detect_blur, cvtColorGray, h]

/-- Concrete evaluation: the two-pixel high-contrast buffer scores
`2 · 510² / 2 = 260100`. -/
theorem blurScore_sharp2 : blurScore sharp2 = 260100 := by
  norm_num [sharp2, blurScore, grayOf, laplacian, lapAt, grayAt, reflect101,
    bgr2grayPix, npVar, List.range_succ]

/-- Concrete evaluation: the uniform one-pixel buffer scores `0`. -/
theorem blurScore_uniPix1 : blurScore uniPix1 = 0 := by
  norm_num [uniPix1, blurScore, grayOf, laplacian, lapAt, grayAt, reflect101,
    bgr2grayPix, npVar, List.range_succ]

theorem detect_blur_uniPix1 : detect_blur (.nd uniPix1) 0 = .ok (false, 0) := by
  rw [detect_blur_wf (.nd uniPix1) 0 (by decide)]
  simp [toBGR, blurScore_uniPix1]

theorem detect_blur_sharp2_low : detect_blur (.nd sharp2) 0 = .ok (false, 260100) := by
  rw [detect_blur_wf (.nd sharp2) 0 (by decide)]
  simp [toBGR, blurScore_sharp2]

theorem detect_blur_sharp2_high :
    detect_blur (.nd sharp2) 1000000 = .ok (true, 260100) := by
  rw [detect_blur_wf (.nd sharp2) 1000000 (by decide)]
  simp [toBGR, blurScore_sharp2]
  norm_num

example : detect_blur (.nd []) 100 = .error InvalidImageError := rfl

/-! ### Claims about the scorer -/

/-- C1: for every pixel buffer and every threshold, `detect_blur` returns a
pair `(is_blurry, blur_score)` with `is_blurry = true` iff
`blur_score < threshold`; in particular a score equal to the threshold is
classified not blurry ("CLEAR"). -/
theorem C1_classification (image : ImageInput) (t : ℚ) (b : Bool) (s : ℚ)
    (h : detect_blur image t = .ok (b, s)) :
    (b = true ↔ s < t) ∧ (s = t → b = false) := by
  cases hw : IsWfImg (toBGR image) with
  | false =>
    rw [detect_blur_not_wf image t hw] at h
    simp at h
  | true =>
    rw [detect_blur_wf image t hw, Except.ok.injEq, Prod.mk.injEq] at h
    obtain ⟨hb, hs⟩ := h
    subst hb
    subst hs
    constructor
    · simp
    · intro hst
      simp [hst]

theorem C1_classification_witness :
    ((false = true) ↔ ((0 : ℚ) < 0)) ∧ ((0 : ℚ) = 0 → false = false) :=
  C1_classification (.nd uniPix1) 0 false 0 detect_blur_uniPix1

/-- C9: classification is monotone in the threshold: for a fixed buffer
with score `s` and thresholds `t1 < s < t2`, classifying with `t1` yields
not blurry and with `t2` yields blurry. -/
theorem C9_monotone_threshold (image : ImageInput) (t1 t2 : ℚ) (b1 b2 : Bool)
    (s1 s2 : ℚ)
    (h1 : detect_blur image t1 = .ok (b1, s1))
    (h2 : detect_blur image t2 = .ok (b2, s2))
    (hl : t1 < s1) (hr : s1 < t2) :
    b1 = false ∧ b2 = true := by
  cases hw : IsWfImg (toBGR image) with
  | false =>
    rw [detect_blur_not_wf image t1 hw] at h1
    simp at h1
  | true =>
    rw [detect_blur_wf image t1 hw, Except.ok.injEq, Prod.mk.injEq] at h1
    rw [detect_blur_wf image t2 hw, Except.ok.injEq, Prod.mk.injEq] at h2
    obtain ⟨hb1, hs1⟩ := h1
    obtain ⟨hb2, hs2⟩ := h2
    subst hb1
    subst hs1
    subst hb2
    subst hs2
    refine ⟨?_, ?_⟩
    · simpa using not_lt.mpr (le_of_lt hl)
    · simpa using hr

theorem C9_monotone_threshold_witness : false = false ∧ true = true :=
  C9_monotone_threshold (.nd sharp2) 0 1000000 false true 260100 260100
    detect_blur_sharp2_low detect_blur_sharp2_high (by norm_num) (by norm_num)

/-- C6: `detect_blur` fails, with the invalid-image error, exactly on a
malformed or empty buffer (not a nonempty rectangular raster after
normalization); on every well-formed buffer it raises no error. -/
theorem C6_invalid_buffer (image : ImageInput) (t : ℚ) :
    (IsWfImg (toBGR image) = false ∧ detect_blur image t = .error InvalidImageError) ∨
    (IsWfImg (toBGR image) = true ∧ ∃ b s, detect_blur image t = .ok (b, s)) := by
  cases hw : IsWfImg (toBGR image) with
  | false => exact .inl ⟨rfl, detect_blur_not_wf image t hw⟩
  | true => exact .inr ⟨rfl, _, _, detect_blur_wf image t hw⟩

/-! ### Claims about the PDF decoder -/

/-- C4: whenever any step of the PDF pipeline (fetch, parse, render)
raises an error, `process_pdf` catches it and raises the wrapping
`ValueError("Error processing PDF: " + str(e))`; the original exception
never escapes (every error `process_pdf` raises has that shape). -/
theorem C4_pdf_error_wrapping (w : World) (pdf_path : String) (e0 : PyErr)
    (h : pdfImages w pdf_path = .error e0) :
    process_pdf w pdf_path =
      .error (.valueError ("Error processing PDF: " ++ e0.msg)) ∧
    ∀ e, process_pdf w pdf_path = .error e →
      ∃ msg, e = .valueError ("Error processing PDF: " ++ msg) := by
  constructor
  · simp [process_pdf, h]
  · intro e he
    simp [process_pdf, h] at he
    exact ⟨e0.msg, he.symm⟩

theorem C4_pdf_error_wrapping_witness :
    process_pdf wBoom "a.pdf" =
      .error (.valueError ("Error processing PDF: " ++
        (PyErr.libError "poppler failed").msg)) ∧
    ∀ e, process_pdf wBoom "a.pdf" = .error e →
      ∃ msg, e = .valueError ("Error processing PDF: " ++ msg) :=
  C4_pdf_error_wrapping wBoom "a.pdf" (.libError "poppler failed") rfl
example : is_url "https://example.com/a.pdf" = true := by decide
example : is_url "a.pdf" = false := by decide
example : is_url "/tmp/a.jpg" = false := by decide
example : is_url "http://[::1" = false := by decide
example : is_url "http://[abc]/x" = false := by decide
example : is_url "http://[::1]/x" = true := by decide
example : is_url "http://[1:2:3:4:5:6:7:8]" = true := by decide
example : is_url "http://[1:2:3:4:5:6:7:8:9]" = false := by decide
example : is_url "http://[::ffff:1.2.3.4]" = true := by decide
example : is_url "http://[::ffff:1.2.3.04]" = false := by decide
example : is_url "http://[1.2.3.4]" = false := by decide
example : is_url "http://[fe80::1%eth0]" = true := by decide
example : is_url "http://[fe80::1%]" = false := by decide
example : is_url "http://[v1.x]" = true := by decide
example : is_url "http://[v1.]" = false := by decide
example : is_url "http://[vg.x]" = false := by decide
example : is_url "http:// " = true := by decide
example : is_url " http://x" = true := by decide
example : is_url "http://℀" = false := by decide
example : is_url "http://a℀b@c" = false := by decide
example : is_url "http://é.com" = true := by decide
example : is_pdf "A.PDF" = true := by decide
example : is_pdf "a.pdfx" = false := by decide
example : is_pdf "a.jpg" = false := by decide

/-! ### The uniform-buffer claim -/

theorem reflect101_lt {idx : ℤ} {len : ℕ} (hlen : len ≠ 0)
    (h1 : -1 ≤ idx) (h2 : idx ≤ len) : reflect101 idx len < len := by
  unfold reflect101
  split
  · omega
  · split
    · omega
    · split
      · omega
      · omega

theorem isWfImg_iff {img : Img} :
    IsWfImg img = true ↔
      img ≠ [] ∧ img.headD [] ≠ [] ∧
        ∀ row ∈ img, row.length = (img.headD []).length := by
  simp [IsWfImg]

theorem grayAt_uniform {g : List (List ℕ)} {v : ℕ}
    (hne : g ≠ []) (hw0 : (g.headD []).length ≠ 0)
    (hrect : ∀ row ∈ g, row.length = (g.headD []).length)
    (huni : ∀ row ∈ g, ∀ x ∈ row, x = v)
    (i j : ℤ) (hi1 : -1 ≤ i) (hi2 : i ≤ g.length)
    (hj1 : -1 ≤ j) (hj2 : j ≤ (g.headD []).length) :
    grayAt g i j = (v : ℤ) := by
  have hlen : g.length ≠ 0 := fun h => hne (List.length_eq_zero.mp h)
  have hri := reflect101_lt hlen hi1 hi2
  have hrj := reflect101_lt hw0 hj1 hj2
  unfold grayAt
  have hrowmem : g.getD (reflect101 i g.length) [] ∈ g := by
    rw [List.getD_eq_getElem _ _ hri]
    exact List.getElem_mem hri
  have hcj : reflect101 j (g.headD []).length <
      (g.getD (reflect101 i g.length) []).length := by
    rw [hrect _ hrowmem]
    exact hrj
  have hmem2 : (g.getD (reflect101 i g.length) []).getD
      (reflect101 j (g.headD []).length) 0 ∈ g.getD (reflect101 i g.length) [] := by
    rw [List.getD_eq_getElem _ _ hcj]
    exact List.getElem_mem hcj
  rw [huni _ hrowmem _ hmem2]

theorem lapAt_uniform {g : List (List ℕ)} {v : ℕ}
    (hne : g ≠ []) (hw0 : (g.headD []).length ≠ 0)
    (hrect : ∀ row ∈ g, row.length = (g.headD []).length)
    (huni : ∀ row ∈ g, ∀ x ∈ row, x = v)
    (i j : ℕ) (hi : i < g.length) (hj : j < (g.headD []).length) :
    lapAt g i j = 0 := by
  unfold lapAt
  rw [grayAt_uniform hne hw0 hrect huni ((i : ℤ) - 1) j
        (by omega) (by omega) (by omega) (by omega),
      grayAt_uniform hne hw0 hrect huni ((i : ℤ) + 1) j
        (by omega) (by omega) (by omega) (by omega),
      grayAt_uniform hne hw0 hrect huni (i : ℤ) ((j : ℤ) - 1)
        (by omega) (by omega) (by omega) (by omega),
      grayAt_uniform hne hw0 hrect huni (i : ℤ) ((j : ℤ) + 1)
        (by omega) (by omega) (by omega) (by omega),
      grayAt_uniform hne hw0 hrect huni (i : ℤ) (j : ℤ)
        (by omega) (by omega) (by omega) (by omega)]
  ring

theorem npVar_of_all_zero {xs : List ℚ} (h : ∀ x ∈ xs, x = 0) : npVar xs = 0 := by
  have hs : xs.sum = 0 := List.sum_eq_zero h
  have hsq : (xs.map fun x => x ^ 2).sum = 0 := by
    apply List.sum_eq_zero
    intro y hy
    rcases List.mem_map.mp hy with ⟨x, hx, rfl⟩
    rw [h x hx]
    norm_num
  unfold npVar
  simp only [hs, zero_div, sub_zero]
  rw [hsq, zero_div]

theorem blurScore_uniform {img : Img} {c : Pix}
    (hwf : IsWfImg img = true)
    (huni : ∀ row ∈ img, ∀ p ∈ row, p = c) :
    blurScore img = 0 := by
  obtain ⟨hne, hh0, hrect⟩ := isWfImg_iff.mp hwf
  have hgne : grayOf img ≠ [] := by
    simp [grayOf, hne]
  have hghead : (grayOf img).headD [] = (img.headD []).map bgr2grayPix := by
    cases img with
    | nil => exact absurd rfl hne
    | cons r rs => simp [grayOf]
  have hgw : ((grayOf img).headD []).length = (img.headD []).length := by
    rw [hghead, List.length_map]
  have hgw0 : ((grayOf img).headD []).length ≠ 0 := by
    rw [hgw]
    simpa [List.length_eq_zero] using hh0
  have hgrect : ∀ row ∈ grayOf img, row.length = ((grayOf img).headD []).length := by
    intro row hrow
    rcases List.mem_map.mp hrow with ⟨orow, horow, rfl⟩
    rw [List.length_map, hgw]
    exact hrect orow horow
  have hguni : ∀ row ∈ grayOf img, ∀ x ∈ row, x = bgr2grayPix c := by
    intro row hrow x hx
    rcases List.mem_map.mp hrow with ⟨orow, horow, rfl⟩
    rcases List.mem_map.mp hx with ⟨p, hp, rfl⟩
    rw [huni orow horow p hp]
  unfold blurScore
  apply npVar_of_all_zero
  intro x hx
  rcases List.mem_map.mp hx with ⟨z, hz, rfl⟩
  rcases List.mem_flatten.mp hz with ⟨lrow, hlrow, hzl⟩
  unfold laplacian at hlrow
  rcases List.mem_map.mp hlrow with ⟨i, hi, rfl⟩
  rcases List.mem_map.mp hzl with ⟨j, hj, rfl⟩
  rw [lapAt_uniform hgne hgw0 hgrect hguni i j
    (List.mem_range.mp hi) (List.mem_range.mp hj)]
  norm_num

theorem IsWfImg_map (f : Pix → Pix) (img : Img) :
    IsWfImg (img.map (·.map f)) = IsWfImg img := by
  have e2 : (img.map (·.map f)).headD [] = (img.headD []).map f := by
    cases img <;> simp
  have h : (IsWfImg (img.map (·.map f)) = true) ↔ (IsWfImg img = true) := by
    rw [isWfImg_iff, isWfImg_iff]
    apply and_congr (by simp)
    apply and_congr (by rw [e2]; simp)
    rw [e2]
    constructor
    · intro h row hrow
      have h2 := h (row.map f) (List.mem_map_of_mem _ hrow)
      rw [List.length_map, List.length_map] at h2
      exact h2
    · intro h row hrow
      rcases List.mem_map.mp hrow with ⟨orow, horow, rfl⟩
      rw [List.length_map, List.length_map]
      exact h orow horow
  cases hb : IsWfImg img with
  | true => rw [h.mpr hb]
  | false =>
    cases hmb : IsWfImg (img.map (·.map f)) with
    | false => rfl
    | true =>
      rw [h.mp hmb] at hb
      exact absurd hb (by simp)

/-- C3: a uniformly solid-color buffer (all pixels equal, hence no edges)
scores exactly `0`, and for every strictly positive threshold it is
classified blurry. -/
theorem C3_uniform_zero (image : ImageInput) (c : Pix) (t : ℚ)
    (hwf : IsWfImg (rawGrid image) = true)
    (huni : ∀ row ∈ rawGrid image, ∀ p ∈ row, p = c)
    (ht : 0 < t) :
    detect_blur image t = .ok (true, 0) := by
  cases image with
  | nd img =>
    have hwf' : IsWfImg (toBGR (.nd img)) = true := hwf
    have huni' : ∀ row ∈ toBGR (.nd img), ∀ p ∈ row, p = c := huni
    rw [detect_blur_wf (.nd img) t hwf', blurScore_uniform hwf' huni']
    simp [ht]
  | pil img =>
    have h1 : IsWfImg (toBGR (.pil img)) = true := by
      rw [show toBGR (.pil img) = img.map (·.map fun p => (p.2.2, p.2.1, p.1)) from rfl,
        IsWfImg_map]
      exact hwf
    have h2 : ∀ row ∈ toBGR (.pil img), ∀ p ∈ row, p = (c.2.2, c.2.1, c.1) := by
      intro row hrow p hp
      rcases List.mem_map.mp hrow with ⟨orow, horow, rfl⟩
      rcases List.mem_map.mp hp with ⟨q, hq, rfl⟩
      rw [huni orow horow q hq]
    rw [detect_blur_wf (.pil img) t h1, blurScore_uniform h1 h2]
    simp [ht]

theorem C3_uniform_zero_witness :
    detect_blur (.pil uniPix1) 100 = .ok (true, 0) :=
  C3_uniform_zero (.pil uniPix1) (5, 5, 5) 100 (by decide) (by decide)
    (by norm_num)

/-! ### The PDF reporting claim -/

theorem reportPages_ok (t : ℚ) (images : List Img) :
    ∀ i : ℕ, (∀ img ∈ images, IsWfImg (toBGR (.pil img)) = true) →
      (reportPages t images i).2 = none ∧
      (reportPages t images i).1.filter isPageLine =
        (List.range images.length).map
          (fun k => "Page " ++ toString (i + k + 1) ++ ":") ∧
      ((reportPages t images i).1.filter isStatusLine).length = images.length := by
  induction images with
  | nil =>
    intro i _
    simp [reportPages]
  | cons img rest ih =>
    intro i hwf
    have hw : IsWfImg (toBGR (.pil img)) = true := hwf img (by simp)
    obtain ⟨ihe, ihp, ihs⟩ := ih (i + 1) (fun m hm => hwf m (by simp [hm]))
    have hdb := detect_blur_wf (.pil img) t hw
    have hL1 : isPageLine ("Page " ++ toString (i + 1) ++ ":") = true := by
      simp [isPageLine, String.data_append, List.isPrefixOf_iff_prefix,
        List.append_assoc, List.prefix_append, List.cons_prefix_cons]
    have hL2 : ∀ s : String, isPageLine ("Status: " ++ s) = false := fun s => by
      simp [isPageLine, String.data_append, List.isPrefixOf]
    have hL3 : ∀ s : String, isPageLine ("Blur Score: " ++ s) = false := fun s => by
      simp [isPageLine, String.data_append, List.isPrefixOf]
    have hL4 : isPageLine dashes = false := by decide
    have hS1 : isStatusLine ("Page " ++ toString (i + 1) ++ ":") = false := by
      simp [isStatusLine, String.data_append, List.isPrefixOf]
    have hS2 : ∀ s : String, isStatusLine ("Status: " ++ s) = true := fun s => by
      simp [isStatusLine, String.data_append, List.isPrefixOf]
    have hS3 : ∀ s : String, isStatusLine ("Blur Score: " ++ s) = false := fun s => by
      simp [isStatusLine, String.data_append, List.isPrefixOf]
    have hS4 : isStatusLine dashes = false := by decide
    refine ⟨?_, ?_, ?_⟩
    · simp only [reportPages, hdb]
      exact ihe
    · simp only [reportPages, hdb, List.filter_cons, hL1, hL2, hL3, hL4,
        if_true, if_false, ihp]
      rw [List.length_cons, List.range_succ_eq_map, List.map_cons, List.map_map]
      congr 1
      apply List.map_congr_left
      intro k _
      have harr : i + 1 + k + 1 = i + (k + 1) + 1 := by omega
      simp [Function.comp, harr]
    · simp only [reportPages, hdb, List.filter_cons, hS1, hS2, hS3, hS4,
        if_true, if_false]
      simp [ihs]

/-- C2: for a PDF input whose decode yields `N` page buffers,
`process_file` reports without error, emits exactly the page-index lines
`"Page 1:" … "Page N:"` in that order, and emits exactly `N` status lines
— one block per buffer, numbered from 1. -/
theorem C2_pdf_blocks (w : World) (path : String) (t : ℚ) (images : List Img)
    (hpdf : is_pdf path = true)
    (hok : process_pdf w path = .ok images)
    (hwf : ∀ img ∈ images, IsWfImg (toBGR (.pil img)) = true) :
    (process_file w path t).2 = none ∧
    (process_file w path t).1.filter isPageLine =
      (List.range images.length).map (fun k => "Page " ++ toString (k + 1) ++ ":") ∧
    ((process_file w path t).1.filter isStatusLine).length = images.length := by
  obtain ⟨he, hp, hs⟩ := reportPages_ok t images 0 hwf
  have hpf : process_file w path t =
      (("Processing PDF: " ++ path) :: (reportPages t images 0).1,
       (reportPages t images 0).2) := by
    simp [process_file, hpdf, hok]
  have hhp : isPageLine ("Processing PDF: " ++ path) = false := by
    simp [isPageLine, String.data_append, List.isPrefixOf]
  have hhs : isStatusLine ("Processing PDF: " ++ path) = false := by
    simp [isStatusLine, String.data_append, List.isPrefixOf]
  rw [hpf]
  refine ⟨he, ?_, ?_⟩
  · simp only [List.filter_cons, hhp, if_false, hp]
    simp
  · simp only [List.filter_cons, hhs, if_false]
    exact hs

theorem C2_pdf_blocks_witness :
    (process_file w3pdf "a.pdf" 100).2 = none ∧
    (process_file w3pdf "a.pdf" 100).1.filter isPageLine =
      (List.range 3).map (fun k => "Page " ++ toString (k + 1) ++ ":") ∧
    ((process_file w3pdf "a.pdf" 100).1.filter isStatusLine).length = 3 :=
  C2_pdf_blocks w3pdf "a.pdf" 100 [uniPix1, uniPix1, uniPix1]
    (by decide) rfl (by decide)

/-! ### Claims about the source resolver -/

/-- A mapped list has a given suffix iff some suffix of the original maps
to it. -/
theorem suffix_map {α β : Type} (f : α → β) (l : List α) (s : List β) :
    s <:+ l.map f ↔ ∃ t, t <:+ l ∧ t.map f = s := by
  constructor
  · rintro ⟨pre, hpre⟩
    rcases List.append_eq_map_iff.mp hpre with ⟨l₁, l₂, rfl, h1, h2⟩
    exact ⟨l₂, ⟨l₁, rfl⟩, h2⟩
  · rintro ⟨t, ⟨pre, rfl⟩, rfl⟩
    exact ⟨pre.map f, by rw [List.map_append]⟩

/-- C7: `is_url path` is true iff parsing `path` as a URI yields both a
non-empty scheme and a non-empty network location; a bare local path
yields false; input on which the parser raises `ValueError` — a
mismatched bracket, an invalid bracketed host, or an NFKC-unsafe netloc —
yields false rather than failing. -/
theorem C7_is_url_spec (path : String) :
    (is_url path = true ↔ ∃ scheme netloc,
        urlsplitModel path = some (scheme, netloc) ∧
        scheme ≠ "" ∧ netloc ≠ "") ∧
    is_url "https://example.com/a.pdf" = true ∧
    is_url "a.pdf" = false ∧
    is_url "/tmp/a.jpg" = false ∧
    urlsplitModel "http://[::1" = none ∧
    is_url "http://[::1" = false ∧
    urlsplitModel "http://[abc]/x" = none ∧
    is_url "http://[abc]/x" = false ∧
    urlsplitModel "http://℀" = none ∧
    is_url "http://℀" = false := by
  refine ⟨?_, by decide, by decide, by decide, by decide, by decide,
    by decide, by decide, by decide, by decide⟩
  cases hm : urlsplitModel path with
  | none => simp [is_url, hm]
  | some p =>
    obtain ⟨scheme, netloc⟩ := p
    simp only [is_url, hm, decide_eq_true_eq]
    constructor
    · intro hb
      exact ⟨scheme, netloc, rfl, hb⟩
    · rintro ⟨s, n, hsn, hb⟩
      rw [Option.some.injEq, Prod.mk.injEq] at hsn
      obtain ⟨rfl, rfl⟩ := hsn
      exact hb

/-- C8: `is_pdf path` is true iff `path` ends, case-insensitively, with
the literal suffix `".pdf"` (some suffix of `path` lowercases to
`".pdf"`); `"A.PDF"` is a PDF path, `"a.pdfx"` and `"a.jpg"` are not. -/
theorem C8_is_pdf_suffix (path : String) :
    (is_pdf path = true ↔ ∃ t, t <:+ path.data ∧ t.map pyCharLower = ".pdf".data) ∧
    is_pdf "A.PDF" = true ∧
    is_pdf "a.pdfx" = false ∧
    is_pdf "a.jpg" = false := by
  refine ⟨?_, by decide, by decide, by decide⟩
  show (".pdf".data.isSuffixOf (path.data.map pyCharLower) = true) ↔ _
  rw [List.isSuffixOf_iff_suffix, suffix_map]

/-! ### The frame property of the scorer -/

theorem detect_blurH_uniPix1 :
    detect_blurH [Mat.u8c3 uniPix1] 0 100 =
      .ok ((true, 0), [Mat.u8c3 uniPix1, Mat.u8c1 [[5]], Mat.f64 [[0]]]) := by
  have hg : cvtColorGrayH [Mat.u8c3 uniPix1] 0 =
      .ok (1, [Mat.u8c3 uniPix1, Mat.u8c1 [[5]]]) := rfl
  have hl : laplacianH [Mat.u8c3 uniPix1, Mat.u8c1 [[5]]] 1 =
      .ok (2, [Mat.u8c3 uniPix1, Mat.u8c1 [[5]], Mat.f64 [[0]]]) := rfl
  unfold detect_blurH
  rw [hg]
  dsimp only
  rw [hl]
  norm_num [npVar, List.getD]

/-- C10: `detect_blur` on a raw buffer held in the heap leaves every
pre-existing buffer — in particular the input — unchanged: grayscale and
Laplacian results are freshly allocated. -/
theorem C10_frame (heap : Heap) (h : ℕ) (t : ℚ) (r : Bool × ℚ) (heap' : Heap)
    (hrun : detect_blurH heap h t = .ok (r, heap'))
    (i : ℕ) (hi : i < heap.length) :
    heap'[i]? = heap[i]? := by
  unfold detect_blurH at hrun
  split at hrun
  · simp at hrun
  · rename_i gh heap1 hc
    have h1 : ∃ g, heap1 = heap ++ [Mat.u8c1 g] := by
      unfold cvtColorGrayH at hc
      split at hc
      · rename_i img hmat
        rcases hcv : cvtColorGray img with e' | g
        all_goals rw [hcv] at hc
        · simp at hc
        · simp at hc
          exact ⟨g, hc.2.symm⟩
      all_goals simp at hc
    split at hrun
    · simp at hrun
    · rename_i lh heap2 hc2
      have h2 : ∃ m, heap2 = heap1 ++ [Mat.f64 m] := by
        unfold laplacianH at hc2
        split at hc2
        all_goals simp at hc2
        rename_i g hmat
        exact ⟨laplacian g, hc2.2.symm⟩
      rw [Except.ok.injEq, Prod.mk.injEq] at hrun
      obtain ⟨-, rfl⟩ := hrun
      obtain ⟨g, rfl⟩ := h1
      obtain ⟨m, rfl⟩ := h2
      rw [List.append_assoc, List.getElem?_append_left hi]

/-! ### Claims about the fetcher -/

/-- C5 counterexample: HTTP 204 No Content is a success-class status
(2xx), yet `download_file` raises on it, because the code tests
`status_code != 200` rather than membership in the success class. -/
theorem C5_counterexample :
    isHttpSuccess 204 = true ∧
    download_file w204 "http://example.com/a.pdf" =
      .error (.valueError
        "Failed to download file from URL: http://example.com/a.pdf") := by
  exact ⟨by decide, rfl⟩

/-- C5 (amended): `download_file` (and likewise the fetch inside
`download_image`) raises a `ValueError` carrying the URL in its message
exactly when the HTTP status is not 200 (even success statuses such as
204 raise); and when it raises, `process_file` prints no status or score
lines for that input. -/
theorem C5_fetch_amended (w : World) (url : String) (status : ℕ)
    (content : List ℕ) (t : ℚ)
    (hhttp : w.httpGet url = .ok (status, content)) :
    ((∃ e, download_file w url = .error e) ↔ status ≠ 200) ∧
    (status ≠ 200 →
      download_file w url =
        .error (.valueError ("Failed to download file from URL: " ++ url)) ∧
      download_image w url =
        .error (.valueError ("Failed to download image from URL: " ++ url)) ∧
      (is_url url = true →
        ((process_file w url t).1.filter
          (fun l => isStatusLine l || isScoreLine l)) = [] ∧
        (process_file w url t).2 ≠ none)) := by
  constructor
  · constructor
    · rintro ⟨e, he⟩ h200
      simp [download_file, hhttp, h200] at he
    · intro hne
      exact ⟨.valueError ("Failed to download file from URL: " ++ url),
        by simp [download_file, hhttp, hne]⟩
  · intro hne
    have hdf : download_file w url =
        .error (.valueError ("Failed to download file from URL: " ++ url)) := by
      simp [download_file, hhttp, hne]
    have hdi : download_image w url =
        .error (.valueError ("Failed to download image from URL: " ++ url)) := by
      simp [download_image, hhttp, hne]
    refine ⟨hdf, hdi, fun hurl => ?_⟩
    by_cases hp : is_pdf url = true
    · have hpi : pdfImages w url =
          .error (.valueError ("Failed to download file from URL: " ++ url)) := by
        simp [pdfImages, hurl, hdf]
      have hpp : process_pdf w url = .error (.valueError
          ("Error processing PDF: " ++
            ("Failed to download file from URL: " ++ url))) := by
        simp [process_pdf, hpi, PyErr.msg]
      simp [process_file, hp, hpp, isStatusLine, isScoreLine,
        String.data_append, List.isPrefixOf]
    · have hp' : is_pdf url = false := by simpa using hp
      simp [process_file, hp', hurl, hdi]

theorem C5_fetch_amended_witness :
    ((∃ e, download_file w404 "http://example.com/a.jpg" = .error e) ↔
      (404 : ℕ) ≠ 200) ∧
    ((404 : ℕ) ≠ 200 →
      download_file w404 "http://example.com/a.jpg" =
        .error (.valueError
          ("Failed to download file from URL: " ++ "http://example.com/a.jpg")) ∧
      download_image w404 "http://example.com/a.jpg" =
        .error (.valueError
          ("Failed to download image from URL: " ++ "http://example.com/a.jpg")) ∧
      (is_url "http://example.com/a.jpg" = true →
        ((process_file w404 "http://example.com/a.jpg" 100).1.filter
          (fun l => isStatusLine l || isScoreLine l)) = [] ∧
        (process_file w404 "http://example.com/a.jpg" 100).2 ≠ none)) :=
  C5_fetch_amended w404 "http://example.com/a.jpg" 404 [] 100 rfl

theorem C10_frame_witness :
    ([Mat.u8c3 uniPix1, Mat.u8c1 [[5]], Mat.f64 [[0]]] : Heap)[0]? =
      ([Mat.u8c3 uniPix1] : Heap)[0]? :=
  C10_frame [Mat.u8c3 uniPix1] 0 100 (true, 0)
    [Mat.u8c3 uniPix1, Mat.u8c1 [[5]], Mat.f64 [[0]]]
    detect_blurH_uniPix1 0 (by decide)
